import Mathlib

/-!
Shallow embedding of `src/bank_system.py`, a single-file loan-management
service.  Money amounts are modelled as rationals; `round(x, 2)` becomes
`round2` below; Python dicts (which preserve insertion order) become
association lists with `alookup` / `aset`; the JSON request fields, which
may be absent, become `Option` arguments.  Each Flask handler becomes a
pure function from its request fields and the loaded dataset to the
updated dataset and an abstract response value; the HTTP status and
message of each response constructor are noted in its doc comment.
-/

namespace BankSystem

/-- Python `round(x, 2)`: round to 2 decimal places. -/
def round2 (x : ℚ) : ℚ := (round (100 * x) : ℤ) / 100

/-- A recorded payment: `{"amount": round(amount, 2), "date": ...}`.
The timestamp `datetime.utcnow().isoformat()` is an external input and is
threaded into `make_payment` as the argument `now`. -/
structure Payment where
  amount : ℚ
  date : String
deriving DecidableEq

/-- A loan record as built in `lend_money`. -/
structure Loan where
  customer_id : String
  principal : ℚ
  years : ℤ
  rate : ℚ
  total_interest : ℚ
  total_amount : ℚ
  emi_amount : ℚ
  payments : List Payment
deriving DecidableEq

/-- A customer record: `{"loan_ids": [...]}`. -/
structure Customer where
  loan_ids : List String
deriving DecidableEq

/-- The persisted dataset: `{"loans": {...}, "customers": {...}, "next_loan_id": n}`. -/
structure Dataset where
  loans : List (String × Loan)
  customers : List (String × Customer)
  next_loan_id : ℤ
deriving DecidableEq

/-- Python dict lookup `m.get(k)` on an insertion-ordered association list. -/
def alookup {α : Type} (k : String) : List (String × α) → Option α
  | [] => none
  | (k', v) :: rest => if k' = k then some v else alookup k rest

/-- Python dict assignment `m[k] = v`: replace in place, or append a new key. -/
def aset {α : Type} (k : String) (v : α) : List (String × α) → List (String × α)
  | [] => [(k, v)]
  | (k', v') :: rest => if k' = k then (k, v) :: rest else (k', v') :: aset k v rest

/-- `load_data` when no data file exists yet: the fresh dataset. -/
def load_data : Dataset := { loans := [], customers := [], next_loan_id := 1 }

/-- The derived snapshot returned by `get_loan_details`. -/
structure LoanDetails where
  principal : ℚ
  total_amount : ℚ
  emi_amount : ℚ
  total_interest : ℚ
  amount_paid : ℚ
  balance_amount : ℚ
  emis_left : ℤ
deriving DecidableEq

/-- Body of `get_loan_details` once the loan has been found
(`math.ceil` becomes `Int.ceil`, `max(0, ·)` becomes `max 0 ·`). -/
def loan_details (loan : Loan) : LoanDetails :=
  let amount_paid := (loan.payments.map Payment.amount).sum
  let balance_amount := loan.total_amount - amount_paid
  let emis_left : ℤ :=
    if 0 < loan.emi_amount then ⌈balance_amount / loan.emi_amount⌉ else 0
  { principal := loan.principal
    total_amount := loan.total_amount
    emi_amount := loan.emi_amount
    total_interest := loan.total_interest
    amount_paid := round2 amount_paid
    balance_amount := round2 balance_amount
    emis_left := max 0 emis_left }

/-- `get_loan_details(loan_id, data)`: `none` when the loan does not exist. -/
def get_loan_details (loan_id : String) (data : Dataset) : Option LoanDetails :=
  (alookup loan_id data.loans).map loan_details

/-- Outcome of the `/lend` handler.
`typeError` is the unhandled `TypeError`/`ValueError` raised by
`float(None)`/`int(None)` when a numeric field is absent (HTTP 500);
`validationError` is the 400 response; `ok` is the 201 response carrying
`loan_id`, `total_amount_to_pay` and `monthly_emi`. -/
inductive LendResult where
  | typeError
  | validationError
  | ok (loan_id : String) (total_amount_to_pay : ℚ) (monthly_emi : ℚ)
deriving DecidableEq

/-- `lend_money`: the `/lend` handler.  The numeric conversions
`float(req_data.get(...))` run before validation, so an absent numeric
field raises before the validation check; `not all([customer_id, ...])`
treats a missing or empty `customer_id` as falsy. -/
def lend_money (req_customer_id : Option String) (req_amount : Option ℚ)
    (req_years : Option ℤ) (req_rate : Option ℚ) (data : Dataset) :
    Dataset × LendResult :=
  match req_amount, req_years, req_rate with
  | some principal, some years, some rate_pct =>
    let customer_id := req_customer_id.getD ""
    let rate := rate_pct / 100
    if customer_id = "" ∨ principal ≤ 0 ∨ years ≤ 0 ∨ rate ≤ 0 then
      (data, .validationError)
    else
      let interest := principal * (years : ℚ) * rate
      let total_amount := principal + interest
      let emi_amount := total_amount / ((years : ℚ) * 12)
      let loan_id := toString data.next_loan_id
      let new_loan : Loan :=
        { customer_id := customer_id
          principal := principal
          years := years
          rate := rate
          total_interest := round2 interest
          total_amount := round2 total_amount
          emi_amount := round2 emi_amount
          payments := [] }
      let customers' :=
        match alookup customer_id data.customers with
        | none => aset customer_id { loan_ids := [loan_id] } data.customers
        | some cust =>
          aset customer_id { loan_ids := cust.loan_ids ++ [loan_id] } data.customers
      ({ loans := aset loan_id new_loan data.loans
         customers := customers'
         next_loan_id := data.next_loan_id + 1 },
       .ok loan_id (round2 total_amount) (round2 emi_amount))
  | _, _, _ => (data, .typeError)

/-- Outcome of the `/payment` handler.
`typeError`: `float(None)` on a missing `amount` (HTTP 500);
`validationError`: 400; `notFound`: 404; `alreadyPaid`: the 200
"This loan is already fully paid." response; `ok`: the 200 response
carrying `loan_id` and `amount_paid`. -/
inductive PayResult where
  | typeError
  | validationError
  | notFound
  | alreadyPaid
  | ok (loan_id : String) (amount_paid : ℚ)
deriving DecidableEq

/-- `make_payment`: the `/payment` handler.  `now` is the UTC timestamp
`datetime.utcnow().isoformat()` taken at recording time. -/
def make_payment (req_loan_id : Option String) (req_amount : Option ℚ)
    (now : String) (data : Dataset) : Dataset × PayResult :=
  match req_amount with
  | none => (data, .typeError)
  | some amount0 =>
    let loan_id := req_loan_id.getD ""
    if loan_id = "" ∨ amount0 ≤ 0 then (data, .validationError)
    else
      match alookup loan_id data.loans with
      | none => (data, .notFound)
      | some loan =>
        let details := loan_details loan
        if details.balance_amount ≤ 0 then (data, .alreadyPaid)
        else
          let amount :=
            if details.balance_amount < amount0 then details.balance_amount else amount0
          let payment_record : Payment := { amount := round2 amount, date := now }
          let loan' := { loan with payments := loan.payments ++ [payment_record] }
          ({ data with loans := aset loan_id loan' data.loans }, .ok loan_id amount)

/-- One entry of the `/overview` response list. -/
structure LoanSummary where
  loan_id : String
  principal_amount : ℚ
  total_amount : ℚ
  emi_amount : ℚ
  total_interest : ℚ
  amount_paid_till_date : ℚ
  emis_left : ℤ
deriving DecidableEq

/-- The summary dict built for one loan inside `get_account_overview`. -/
def mkSummary (loan_id : String) (details : LoanDetails) : LoanSummary :=
  { loan_id := loan_id
    principal_amount := details.principal
    total_amount := details.total_amount
    emi_amount := details.emi_amount
    total_interest := details.total_interest
    amount_paid_till_date := details.amount_paid
    emis_left := details.emis_left }

/-- Outcome of the `/overview` handler: `notFound` is the 404
`{"error": "Customer not found."}` response, `ok` the 200 response. -/
inductive OverviewResult where
  | notFound
  | ok (customer_id : String) (loans : List LoanSummary)
deriving DecidableEq

/-- `get_account_overview`: the `/overview/<customer_id>` handler.  The
`if details:` guard in the loop skips loan ids that fail to resolve,
hence the `filterMap`. -/
def get_account_overview (customer_id : String) (data : Dataset) : OverviewResult :=
  match alookup customer_id data.customers with
  | none => .notFound
  | some cust =>
    .ok customer_id
      (cust.loan_ids.filterMap fun lid => (get_loan_details lid data).map (mkSummary lid))

/-- An API request, for reasoning about sequences of operations.  The
request fields are the decoded JSON fields; `now` is the wall-clock
timestamp seen by a `pay` request. -/
inductive Op where
  | lend (customer_id : Option String) (amount : Option ℚ)
         (years : Option ℤ) (rate : Option ℚ)
  | pay (loan_id : Option String) (amount : Option ℚ) (now : String)

/-- The dataset after one request (reads leave it unchanged). -/
def applyOp (op : Op) (d : Dataset) : Dataset :=
  match op with
  | .lend c a y r => (lend_money c a y r d).1
  | .pay l a n => (make_payment l a n d).1

/-- The dataset after a sequence of requests. -/
def runOps : List Op → Dataset → Dataset
  | [], d => d
  | op :: rest, d => runOps rest (applyOp op d)

/-- The loan ids assigned by the successful lends of a request sequence,
in order. -/
def lentIds : List Op → Dataset → List String
  | [], _ => []
  | .lend c a y r :: rest, d =>
    match (lend_money c a y r d).2 with
    | .ok lid _ _ => lid :: lentIds rest ((lend_money c a y r d).1)
    | _ => lentIds rest ((lend_money c a y r d).1)
  | .pay l a n :: rest, d => lentIds rest ((make_payment l a n d).1)

/-- The loan produced by the spec's worked example
`lend(customer_id="c1", amount=1200, years=1, rate=10)`. -/
def exampleLoan : Loan :=
  { customer_id := "c1"
    principal := 1200
    years := 1
    rate := 1 / 10
    total_interest := 120
    total_amount := 1320
    emi_amount := 110
    payments := [] }

/-- The dataset after the spec's worked example lend. -/
def exampleData : Dataset :=
  { loans := [("1", exampleLoan)]
    customers := [("c1", { loan_ids := ["1"] })]
    next_loan_id := 2 }

/-- The example loan after it has been paid off in full. -/
def examplePaidLoan : Loan :=
  { exampleLoan with payments := [{ amount := 1320, date := "t0" }] }

/-- The example dataset with the loan fully paid. -/
def examplePaidData : Dataset :=
  { exampleData with loans := [("1", examplePaidLoan)] }

/-! ### Basic lemmas about rounding and the association-list operations -/

/-- An amount with at most two decimal places. -/
def TwoDecimal (x : ℚ) : Prop := ∃ k : ℤ, x = (k : ℚ) / 100

/-- Referential integrity: every loan id listed by a customer is a key of
the loans map, and every loan's `customer_id` is a key of the customers
map. -/
def RefIntegrity (d : Dataset) : Prop :=
  (∀ (cid : String) (cust : Customer), alookup cid d.customers = some cust →
    ∀ lid ∈ cust.loan_ids, (alookup lid d.loans).isSome = true) ∧
  (∀ (lid : String) (loan : Loan), alookup lid d.loans = some loan →
    (alookup loan.customer_id d.customers).isSome = true)

theorem round2_intCast_div (k : ℤ) : round2 ((k : ℚ) / 100) = (k : ℚ) / 100 := by
  unfold round2
  rw [mul_comm, div_mul_cancel₀ _ (by norm_num : (100 : ℚ) ≠ 0), round_intCast]

theorem round2_twoDecimal (x : ℚ) : TwoDecimal (round2 x) :=
  ⟨round (100 * x), rfl⟩

theorem round2_eq_self {x : ℚ} (h : TwoDecimal x) : round2 x = x := by
  obtain ⟨k, rfl⟩ := h
  exact round2_intCast_div k

theorem round2_round2 (x : ℚ) : round2 (round2 x) = round2 x :=
  round2_eq_self (round2_twoDecimal x)

theorem round2_sub_round2 (x : ℚ) : round2 (x - round2 x) = 0 := by
  unfold round2
  have h : (100 : ℚ) * (x - (round (100 * x) : ℤ) / 100)
      = 100 * x - (round (100 * x) : ℤ) := by
    field_simp
    ring
  rw [h, round_sub_int, sub_self, Int.cast_zero, zero_div]

theorem TwoDecimal.sub {x y : ℚ} (hx : TwoDecimal x) (hy : TwoDecimal y) :
    TwoDecimal (x - y) := by
  obtain ⟨k, rfl⟩ := hx
  obtain ⟨m, rfl⟩ := hy
  exact ⟨k - m, by push_cast; ring⟩

theorem TwoDecimal.add {x y : ℚ} (hx : TwoDecimal x) (hy : TwoDecimal y) :
    TwoDecimal (x + y) := by
  obtain ⟨k, rfl⟩ := hx
  obtain ⟨m, rfl⟩ := hy
  exact ⟨k + m, by push_cast; ring⟩

theorem twoDecimal_sum {l : List ℚ} (h : ∀ x ∈ l, TwoDecimal x) :
    TwoDecimal l.sum := by
  induction l with
  | nil => exact ⟨0, by norm_num⟩
  | cons x xs ih =>
    rw [List.sum_cons]
    exact (h x (by simp)).add (ih fun y hy => h y (by simp [hy]))

theorem alookup_aset_self {α : Type} (k : String) (v : α) (l : List (String × α)) :
    alookup k (aset k v l) = some v := by
  induction l with
  | nil => simp [aset, alookup]
  | cons p rest ih =>
    by_cases h : p.1 = k
    · simp [aset, alookup, h]
    · simp [aset, alookup, h, ih]

theorem alookup_aset_ne {α : Type} {k k' : String} (h : k' ≠ k) (v : α)
    (l : List (String × α)) : alookup k' (aset k v l) = alookup k' l := by
  have hk : k ≠ k' := Ne.symm h
  induction l with
  | nil => simp [aset, alookup, hk]
  | cons p rest ih =>
    by_cases hp : p.1 = k
    · subst hp
      simp [aset, alookup, hk]
    · simp only [aset, hp, if_false]
      by_cases hp' : p.1 = k'
      · simp [alookup, hp']
      · simp [alookup, hp', ih]

theorem alookup_aset_isSome {α : Type} (k k' : String) (v : α)
    (l : List (String × α)) (h : (alookup k' l).isSome = true) :
    (alookup k' (aset k v l)).isSome = true := by
  by_cases hk : k' = k
  · subst hk; rw [alookup_aset_self]; rfl
  · rwa [alookup_aset_ne hk]

set_option maxRecDepth 4000 in
/-- Sanity check: the example dataset is what the worked-example lend produces. -/
theorem exampleData_eq :
    (lend_money (some "c1") (some 1200) (some 1) (some 10) load_data).1 = exampleData := by
  with_unfolding_all decide

/-! ### Reduction lemmas for the handlers -/

theorem loan_details_balance_eq (loan : Loan) :
    (loan_details loan).balance_amount
      = round2 (loan.total_amount - (loan.payments.map Payment.amount).sum) := rfl

theorem loan_details_paid_eq (loan : Loan) :
    (loan_details loan).amount_paid = round2 (loan.payments.map Payment.amount).sum := rfl

theorem loan_details_balance_twoDecimal (loan : Loan) :
    TwoDecimal (loan_details loan).balance_amount := by
  rw [loan_details_balance_eq]
  exact round2_twoDecimal _

/-- A successful (recording) payment, written out: the guards pass, the
request amount strictly exceeds the balance, and the handler stores the
capped, rounded payment and reports the capped amount. -/
theorem make_payment_ok_eq (d : Dataset) (lid : String) (loan : Loan)
    (amount : ℚ) (now : String)
    (hlid : lid ≠ "")
    (hl : alookup lid d.loans = some loan)
    (hbal : 0 < (loan_details loan).balance_amount)
    (hover : (loan_details loan).balance_amount < amount) :
    make_payment (some lid) (some amount) now d
      = ({ d with
            loans := aset lid
              ({ loan with
                  payments := loan.payments
                    ++ [{ amount := round2 (loan_details loan).balance_amount,
                          date := now }] })
              d.loans },
         .ok lid (loan_details loan).balance_amount) := by
  have hpos : 0 < amount := lt_trans hbal hover
  have hguard : ¬(lid = "" ∨ amount ≤ 0) := by
    push_neg
    exact ⟨hlid, hpos⟩
  simp only [make_payment, Option.getD_some, hl]
  rw [if_neg hguard, if_neg (not_le.mpr hbal), if_pos hover]

/-- A successful payment that does not hit the cap, written out. -/
theorem make_payment_ok_eq_of_le (d : Dataset) (lid : String) (loan : Loan)
    (amount : ℚ) (now : String)
    (hlid : lid ≠ "")
    (hl : alookup lid d.loans = some loan)
    (hbal : 0 < (loan_details loan).balance_amount)
    (hamt : 0 < amount)
    (hle : ¬((loan_details loan).balance_amount < amount)) :
    make_payment (some lid) (some amount) now d
      = ({ d with
            loans := aset lid
              ({ loan with
                  payments := loan.payments
                    ++ [{ amount := round2 amount, date := now }] })
              d.loans },
         .ok lid amount) := by
  have hguard : ¬(lid = "" ∨ amount ≤ 0) := by
    push_neg
    exact ⟨hlid, hamt⟩
  simp only [make_payment, Option.getD_some, hl]
  rw [if_neg hguard, if_neg (not_le.mpr hbal), if_neg hle]

/-! ### Claim theorems -/

/-- Claim C1: every valid `lend(customer_id, amount, years, rate_percent)`
request stores `total_interest = round2 (amount * years * (rate_percent/100))`,
`total_amount = round2 (amount + interest)` and
`emi_amount = round2 ((amount + interest) / (years * 12))`, rounding only at
storage time, and the response reports the stored `total_amount` and
`emi_amount`. -/
theorem lend_stores_rounded_simple_interest (d : Dataset) (cid : String)
    (amount : ℚ) (years : ℤ) (rate_pct : ℚ)
    (hc : cid ≠ "") (ha : 0 < amount) (hy : 0 < years) (hr : 0 < rate_pct) :
    ∃ loan : Loan,
      alookup (toString d.next_loan_id)
          (lend_money (some cid) (some amount) (some years) (some rate_pct) d).1.loans
        = some loan ∧
      loan.total_interest = round2 (amount * (years : ℚ) * (rate_pct / 100)) ∧
      loan.total_amount = round2 (amount + amount * (years : ℚ) * (rate_pct / 100)) ∧
      loan.emi_amount
        = round2 ((amount + amount * (years : ℚ) * (rate_pct / 100)) / ((years : ℚ) * 12)) ∧
      (lend_money (some cid) (some amount) (some years) (some rate_pct) d).2
        = .ok (toString d.next_loan_id) loan.total_amount loan.emi_amount := by
  have hcond : ¬(cid = "" ∨ amount ≤ 0 ∨ years ≤ 0 ∨ rate_pct / 100 ≤ 0) := by
    push_neg
    exact ⟨hc, ha, hy, div_pos hr (by norm_num)⟩
  simp only [lend_money, Option.getD_some]
  rw [if_neg hcond]
  exact ⟨_, alookup_aset_self _ _ _, rfl, rfl, rfl, rfl⟩

/-- Witness for C1 at the spec's worked example
`lend("c1", 1200, 1, 10)`. -/
theorem lend_stores_rounded_simple_interest_witness :
    ∃ loan : Loan,
      alookup (toString load_data.next_loan_id)
          (lend_money (some "c1") (some 1200) (some 1) (some 10) load_data).1.loans
        = some loan ∧
      loan.total_interest = round2 (1200 * ((1 : ℤ) : ℚ) * (10 / 100)) ∧
      loan.total_amount = round2 (1200 + 1200 * ((1 : ℤ) : ℚ) * (10 / 100)) ∧
      loan.emi_amount
        = round2 ((1200 + 1200 * ((1 : ℤ) : ℚ) * (10 / 100)) / (((1 : ℤ) : ℚ) * 12)) ∧
      (lend_money (some "c1") (some 1200) (some 1) (some 10) load_data).2
        = .ok (toString load_data.next_loan_id) loan.total_amount loan.emi_amount :=
  lend_stores_rounded_simple_interest load_data "c1" 1200 1 10
    (by decide) (by norm_num) (by norm_num) (by norm_num)

/-- Claim C2: paying strictly more than a strictly positive balance records
a payment of exactly the balance at that moment (the excess is discarded)
and leaves the loan with `balance_amount` exactly 0. -/
theorem overpayment_records_balance_and_zeroes (d : Dataset) (lid : String)
    (loan : Loan) (amount : ℚ) (now : String)
    (hlid : lid ≠ "")
    (hl : alookup lid d.loans = some loan)
    (hbal : 0 < (loan_details loan).balance_amount)
    (hover : (loan_details loan).balance_amount < amount) :
    ∃ loan' : Loan,
      alookup lid (make_payment (some lid) (some amount) now d).1.loans = some loan' ∧
      loan'.payments
        = loan.payments ++ [{ amount := (loan_details loan).balance_amount, date := now }] ∧
      (loan_details loan').balance_amount = 0 := by
  have hrec : round2 (loan_details loan).balance_amount = (loan_details loan).balance_amount :=
    round2_eq_self (loan_details_balance_twoDecimal loan)
  rw [make_payment_ok_eq d lid loan amount now hlid hl hbal hover]
  refine ⟨_, alookup_aset_self _ _ _, by rw [hrec], ?_⟩
  rw [loan_details_balance_eq]
  dsimp only
  rw [List.map_append, List.sum_append]
  simp only [List.map_cons, List.map_nil, List.sum_cons, List.sum_nil, add_zero]
  rw [hrec]
  have hsplit : loan.total_amount
        - ((loan.payments.map Payment.amount).sum + (loan_details loan).balance_amount)
      = (loan.total_amount - (loan.payments.map Payment.amount).sum)
        - round2 (loan.total_amount - (loan.payments.map Payment.amount).sum) := by
    rw [loan_details_balance_eq]
    ring
  rw [hsplit, round2_sub_round2]

/-- Witness for C2: overpaying the worked-example loan (balance 1320)
with 2000 records exactly 1320 and zeroes the balance. -/
theorem overpayment_records_balance_and_zeroes_witness :
    ∃ loan' : Loan,
      alookup "1" (make_payment (some "1") (some 2000) "t1" exampleData).1.loans = some loan' ∧
      loan'.payments
        = exampleLoan.payments
            ++ [{ amount := (loan_details exampleLoan).balance_amount, date := "t1" }] ∧
      (loan_details loan').balance_amount = 0 :=
  overpayment_records_balance_and_zeroes exampleData "1" exampleLoan 2000 "t1"
    (by decide) rfl
    (by rw [loan_details_balance_eq]; norm_num [exampleLoan, round2, round_eq])
    (by rw [loan_details_balance_eq]; norm_num [exampleLoan, round2, round_eq])

/-- Claim C3: paying any positive amount on a loan whose computed balance
is already non-positive appends no payment, leaves the dataset unchanged,
and returns the "already fully paid" (HTTP 200) response. -/
theorem pay_on_fully_paid_loan_is_noop (d : Dataset) (lid : String) (loan : Loan)
    (amount : ℚ) (now : String)
    (hlid : lid ≠ "") (hl : alookup lid d.loans = some loan) (hamt : 0 < amount)
    (hbal : (loan_details loan).balance_amount ≤ 0) :
    make_payment (some lid) (some amount) now d = (d, .alreadyPaid) := by
  have hguard : ¬(lid = "" ∨ amount ≤ 0) := by
    push_neg
    exact ⟨hlid, hamt⟩
  simp only [make_payment, Option.getD_some, hl]
  rw [if_neg hguard, if_pos hbal]

/-- Witness for C3: paying on the fully paid example loan is a no-op. -/
theorem pay_on_fully_paid_loan_is_noop_witness :
    make_payment (some "1") (some 500) "t2" examplePaidData
      = (examplePaidData, .alreadyPaid) :=
  pay_on_fully_paid_loan_is_noop examplePaidData "1" examplePaidLoan 500 "t2"
    (by decide) rfl (by norm_num)
    (by rw [loan_details_balance_eq]; norm_num [examplePaidLoan, exampleLoan, round2, round_eq])

theorem loan_details_emis_eq (loan : Loan) :
    (loan_details loan).emis_left
      = max 0
          (if 0 < loan.emi_amount
            then ⌈(loan.total_amount - (loan.payments.map Payment.amount).sum)
                    / loan.emi_amount⌉
            else 0) := rfl

/-- Claim C5: `emis_left` is `ceil(balance_amount / emi_amount)` clamped below
at 0 when `emi_amount > 0` and 0 otherwise; it is never negative and is 0
whenever `balance_amount ≤ 0`.  The hypotheses say the stored amounts have at
most two decimal places, which holds for every loan the handlers create
(`lend_money` and `make_payment` round every stored amount with `round2`). -/
theorem emis_left_is_clamped_ceil (loan : Loan)
    (ht : TwoDecimal loan.total_amount)
    (hp : ∀ p ∈ loan.payments, TwoDecimal p.amount) :
    ((loan_details loan).emis_left
        = (if 0 < loan.emi_amount
            then max 0 ⌈(loan_details loan).balance_amount / loan.emi_amount⌉
            else 0)) ∧
    0 ≤ (loan_details loan).emis_left ∧
    ((loan_details loan).balance_amount ≤ 0 → (loan_details loan).emis_left = 0) := by
  have hraw : TwoDecimal (loan.total_amount - (loan.payments.map Payment.amount).sum) := by
    refine ht.sub (twoDecimal_sum ?_)
    intro x hx
    obtain ⟨p, hpmem, rfl⟩ := List.mem_map.mp hx
    exact hp p hpmem
  have hb : (loan_details loan).balance_amount
      = loan.total_amount - (loan.payments.map Payment.amount).sum := by
    rw [loan_details_balance_eq]
    exact round2_eq_self hraw
  refine ⟨?_, ?_, ?_⟩
  · rw [loan_details_emis_eq, hb]
    by_cases he : 0 < loan.emi_amount
    · simp [he]
    · simp [he]
  · rw [loan_details_emis_eq]
    exact le_max_left 0 _
  · intro h0
    rw [hb] at h0
    rw [loan_details_emis_eq]
    by_cases he : 0 < loan.emi_amount
    · rw [if_pos he]
      have hdiv : (loan.total_amount - (loan.payments.map Payment.amount).sum)
          / loan.emi_amount ≤ 0 :=
        div_nonpos_iff.mpr (Or.inr ⟨h0, le_of_lt he⟩)
      refine max_eq_left (Int.ceil_le.mpr ?_)
      exact_mod_cast hdiv
    · simp [he]

/-- Witness for C5 at the worked-example loan. -/
theorem emis_left_is_clamped_ceil_witness :
    ((loan_details exampleLoan).emis_left
        = (if 0 < exampleLoan.emi_amount
            then max 0 ⌈(loan_details exampleLoan).balance_amount / exampleLoan.emi_amount⌉
            else 0)) ∧
    0 ≤ (loan_details exampleLoan).emis_left ∧
    ((loan_details exampleLoan).balance_amount ≤ 0
      → (loan_details exampleLoan).emis_left = 0) :=
  emis_left_is_clamped_ceil exampleLoan ⟨132000, by norm_num [exampleLoan]⟩
    (by intro p hp; simp [exampleLoan] at hp)

/-- Counterexample to Claim C6 as stated: a `lend` request whose `amount`
field is missing does not produce the 400 ValidationError response; the
handler's `float(req_data.get('amount'))` raises an unhandled `TypeError`
(HTTP 500) before validation runs.  The dataset is still unchanged. -/
theorem lend_missing_amount_is_type_error :
    (lend_money (some "c1") none (some 1) (some 10) load_data).2 = LendResult.typeError ∧
    LendResult.typeError ≠ LendResult.validationError ∧
    (lend_money (some "c1") none (some 1) (some 10) load_data).1 = load_data :=
  ⟨rfl, by decide, rfl⟩

/-- Claim C6 as amended: a `lend` request with an empty or missing
`customer_id`, or a present but non-positive `amount`, `years` or `rate`,
fails with the 400 ValidationError and leaves the dataset unchanged; a
request missing `amount`, `years` or `rate` instead fails with an unhandled
TypeError (HTTP 500), also leaving the dataset unchanged. -/
theorem lend_invalid_rejected_without_mutation (d : Dataset) (c : Option String)
    (a : ℚ) (y : ℤ) (r : ℚ) :
    ((c.getD "" = "" ∨ a ≤ 0 ∨ y ≤ 0 ∨ r ≤ 0) →
      lend_money c (some a) (some y) (some r) d = (d, .validationError)) ∧
    (∀ (oy : Option ℤ) (og : Option ℚ), lend_money c none oy og d = (d, .typeError)) ∧
    (∀ og : Option ℚ, lend_money c (some a) none og d = (d, .typeError)) ∧
    lend_money c (some a) (some y) none d = (d, .typeError) := by
  refine ⟨?_, fun oy og => rfl, fun og => rfl, rfl⟩
  intro h
  have hcond : c.getD "" = "" ∨ a ≤ 0 ∨ y ≤ 0 ∨ r / 100 ≤ 0 := by
    rcases h with h | h | h | h
    · exact Or.inl h
    · exact Or.inr (Or.inl h)
    · exact Or.inr (Or.inr (Or.inl h))
    · exact Or.inr (Or.inr (Or.inr (div_nonpos_iff.mpr (Or.inr ⟨h, by norm_num⟩))))
  simp only [lend_money]
  rw [if_pos hcond]

/-- Witness for the amended C6: an empty `customer_id` is rejected with
ValidationError, and a missing `amount` raises the TypeError instead. -/
theorem lend_invalid_rejected_without_mutation_witness :
    lend_money (some "") (some 1) (some 1) (some 1) load_data
      = (load_data, .validationError) ∧
    lend_money (some "c1") none (some 1) (some 1) load_data
      = (load_data, .typeError) :=
  ⟨(lend_invalid_rejected_without_mutation load_data (some "") 1 1 1).1 (Or.inl rfl),
   (lend_invalid_rejected_without_mutation load_data (some "c1") 1 1 1).2.1
     (some 1) (some 1)⟩

set_option maxRecDepth 8000 in
/-- Counterexample to Claim C7 as stated: paying 10.005 on the
worked-example loan (balance 1320) returns `amount_paid = 10.005` while the
appended payment record stores `round(10.005, 2) = 10.01`; the response does
not equal the stored amount. -/
theorem pay_response_differs_from_stored_amount :
    (make_payment (some "1") (some (2001 / 200)) "t3" exampleData).2
      = PayResult.ok "1" (2001 / 200) ∧
    ((alookup "1" (make_payment (some "1") (some (2001 / 200)) "t3" exampleData).1.loans).map
        (fun l => l.payments.map Payment.amount)) = some [1001 / 100] ∧
    (2001 / 200 : ℚ) ≠ (1001 / 100 : ℚ) := by
  with_unfolding_all decide

/-- Claim C7 as amended: for every payment that records, the response's
`amount_paid` is the post-cap request amount before rounding, while the
stored payment amount is that value rounded to 2 decimal places; the two
coincide whenever the post-cap amount has at most two decimal places (in
particular whenever the cap applies). -/
theorem pay_reports_postcap_prerounding_amount (d : Dataset) (lid : String)
    (loan : Loan) (amount : ℚ) (now : String)
    (hlid : lid ≠ "")
    (hl : alookup lid d.loans = some loan)
    (hbal : 0 < (loan_details loan).balance_amount)
    (hamt : 0 < amount) :
    ∃ loan' : Loan,
      alookup lid (make_payment (some lid) (some amount) now d).1.loans = some loan' ∧
      loan'.payments
        = loan.payments
            ++ [{ amount := round2 (if (loan_details loan).balance_amount < amount
                                    then (loan_details loan).balance_amount else amount),
                  date := now }] ∧
      (make_payment (some lid) (some amount) now d).2
        = .ok lid (if (loan_details loan).balance_amount < amount
                   then (loan_details loan).balance_amount else amount) ∧
      (TwoDecimal (if (loan_details loan).balance_amount < amount
                   then (loan_details loan).balance_amount else amount) →
        round2 (if (loan_details loan).balance_amount < amount
                then (loan_details loan).balance_amount else amount)
          = (if (loan_details loan).balance_amount < amount
             then (loan_details loan).balance_amount else amount)) := by
  by_cases hover : (loan_details loan).balance_amount < amount
  · rw [make_payment_ok_eq d lid loan amount now hlid hl hbal hover]
    rw [if_pos hover]
    exact ⟨_, alookup_aset_self _ _ _, rfl, rfl, fun h => round2_eq_self h⟩
  · rw [make_payment_ok_eq_of_le d lid loan amount now hlid hl hbal hamt hover]
    rw [if_neg hover]
    exact ⟨_, alookup_aset_self _ _ _, rfl, rfl, fun h => round2_eq_self h⟩

/-- Witness for the amended C7: paying 500 on the worked-example loan
reports 500, stores `round2 500 = 500`, and the two agree. -/
theorem pay_reports_postcap_prerounding_amount_witness :
    ∃ loan' : Loan,
      alookup "1" (make_payment (some "1") (some 500) "t4" exampleData).1.loans = some loan' ∧
      loan'.payments
        = exampleLoan.payments
            ++ [{ amount := round2 (if (loan_details exampleLoan).balance_amount < 500
                                    then (loan_details exampleLoan).balance_amount else 500),
                  date := "t4" }] ∧
      (make_payment (some "1") (some 500) "t4" exampleData).2
        = .ok "1" (if (loan_details exampleLoan).balance_amount < 500
                   then (loan_details exampleLoan).balance_amount else 500) ∧
      (TwoDecimal (if (loan_details exampleLoan).balance_amount < 500
                   then (loan_details exampleLoan).balance_amount else 500) →
        round2 (if (loan_details exampleLoan).balance_amount < 500
                then (loan_details exampleLoan).balance_amount else 500)
          = (if (loan_details exampleLoan).balance_amount < 500
             then (loan_details exampleLoan).balance_amount else 500)) :=
  pay_reports_postcap_prerounding_amount exampleData "1" exampleLoan 500 "t4"
    (by decide) rfl
    (by rw [loan_details_balance_eq]; norm_num [exampleLoan, round2, round_eq])
    (by norm_num)

theorem filterMap_forall2_of_isSome {beta gamma : Type} (f : beta → Option gamma)
    (l : List beta) (h : ∀ x ∈ l, (f x).isSome = true) :
    List.Forall₂ (fun x y => f x = some y) l (l.filterMap f) := by
  induction l with
  | nil => simp [List.filterMap_nil]
  | cons x xs ih =>
    obtain ⟨y, hy⟩ := Option.isSome_iff_exists.mp (h x (by simp))
    rw [List.filterMap_cons, hy]
    exact List.Forall₂.cons hy (ih fun z hz => h z (by simp [hz]))

/-- Claim C8: `getOverview(customer_id)` returns the 404 NotFound response
exactly when the customer is absent; for an existing customer whose listed
loans all resolve, it returns one summary per owned loan, in the order the
loans appear in the customer's `loan_ids` list (origination order). -/
theorem overview_notfound_iff_absent_and_one_summary_per_loan (d : Dataset)
    (cid : String) :
    (get_account_overview cid d = .notFound ↔ alookup cid d.customers = none) ∧
    (∀ cust : Customer, alookup cid d.customers = some cust →
      (∀ lid ∈ cust.loan_ids, (get_loan_details lid d).isSome = true) →
      ∃ L : List LoanSummary,
        get_account_overview cid d = .ok cid L ∧
        List.Forall₂ (fun lid s => (get_loan_details lid d).map (mkSummary lid) = some s)
          cust.loan_ids L) := by
  constructor
  · constructor
    · intro h
      rcases hc : alookup cid d.customers with _ | cust
      · rfl
      · rw [get_account_overview, hc] at h
        exact absurd h (by simp)
    · intro h
      rw [get_account_overview, h]
  · intro cust hc hall
    refine ⟨_, by rw [get_account_overview, hc], ?_⟩
    refine filterMap_forall2_of_isSome _ cust.loan_ids ?_
    intro lid hmem
    rcases Option.isSome_iff_exists.mp (hall lid hmem) with ⟨dt, hdt⟩
    rw [hdt]
    rfl

/-- Witness for C8: the unknown customer gets the 404, and the
worked-example customer gets exactly one summary for their one loan. -/
theorem overview_notfound_iff_absent_and_one_summary_per_loan_witness :
    get_account_overview "unknown" exampleData = .notFound ∧
    ∃ L : List LoanSummary,
      get_account_overview "c1" exampleData = .ok "c1" L ∧
      List.Forall₂
        (fun lid s => (get_loan_details lid exampleData).map (mkSummary lid) = some s)
        (Customer.mk ["1"]).loan_ids L :=
  ⟨(overview_notfound_iff_absent_and_one_summary_per_loan exampleData "unknown").1.mpr rfl,
   (overview_notfound_iff_absent_and_one_summary_per_loan exampleData "c1").2
     (Customer.mk ["1"]) rfl
     (by intro lid h; simp only [List.mem_singleton] at h; subst h; rfl)⟩

/-- Frame facts for `lend_money`, whatever the request: no existing loan
record under a key other than the fresh id is touched, and every existing
customer's `loan_ids` list is only ever extended at the end. -/
theorem lend_money_frame (c : Option String) (a : Option ℚ) (y : Option ℤ)
    (r : Option ℚ) (d : Dataset) :
    (∀ lid' : String, lid' ≠ toString d.next_loan_id →
       alookup lid' (lend_money c a y r d).1.loans = alookup lid' d.loans) ∧
    (∀ (cid : String) (cust : Customer), alookup cid d.customers = some cust →
       ∃ cust' : Customer, alookup cid (lend_money c a y r d).1.customers = some cust' ∧
         ∃ extra : List String, cust'.loan_ids = cust.loan_ids ++ extra) := by
  have trivialCase : ∀ (res : Dataset × LendResult), res.1 = d →
      (∀ lid' : String, lid' ≠ toString d.next_loan_id →
        alookup lid' res.1.loans = alookup lid' d.loans) ∧
      (∀ (cid : String) (cust : Customer), alookup cid d.customers = some cust →
        ∃ cust' : Customer, alookup cid res.1.customers = some cust' ∧
          ∃ extra : List String, cust'.loan_ids = cust.loan_ids ++ extra) := by
    intro res h
    rw [h]
    exact ⟨fun _ _ => rfl,
      fun cid cust hc => ⟨cust, hc, [], (List.append_nil _).symm⟩⟩
  rcases a with _ | a
  · exact trivialCase _ rfl
  rcases y with _ | y
  · exact trivialCase _ rfl
  rcases r with _ | r
  · exact trivialCase _ rfl
  by_cases hcond : c.getD "" = "" ∨ a ≤ 0 ∨ y ≤ 0 ∨ r / 100 ≤ 0
  · refine trivialCase _ ?_
    simp only [lend_money]
    rw [if_pos hcond]
  · simp only [lend_money]
    rw [if_neg hcond]
    constructor
    · intro lid' hne
      exact alookup_aset_ne hne _ _
    · intro cid cust hc
      rcases hcu : alookup (c.getD "") d.customers with _ | cust0
      · simp only [hcu]
        by_cases hcid : cid = c.getD ""
        · rw [hcid] at hc
          rw [hc] at hcu
          exact absurd hcu (by simp)
        · rw [alookup_aset_ne hcid]
          exact ⟨cust, hc, [], (List.append_nil _).symm⟩
      · simp only [hcu]
        by_cases hcid : cid = c.getD ""
        · have hcc : cust0 = cust := by
            rw [hcid] at hc
            rw [hc] at hcu
            exact (Option.some.inj hcu).symm
          subst hcc
          rw [hcid]
          exact ⟨_, alookup_aset_self _ _ _,
            [toString d.next_loan_id], rfl⟩
        · rw [alookup_aset_ne hcid]
          exact ⟨cust, hc, [], (List.append_nil _).symm⟩

/-- A `/payment` request that does not record a payment leaves the dataset
exactly as it was. -/
theorem make_payment_no_record_noop (l : Option String) (a : Option ℚ)
    (now : String) (d : Dataset)
    (h : ∀ (lid0 : String) (am : ℚ), (make_payment l a now d).2 ≠ .ok lid0 am) :
    (make_payment l a now d).1 = d := by
  rcases a with _ | am
  · rfl
  by_cases hg : l.getD "" = "" ∨ am ≤ 0
  · simp only [make_payment]
    rw [if_pos hg]
  · rcases hl : alookup (l.getD "") d.loans with _ | loan
    · simp only [make_payment, hl]
      rw [if_neg hg]
    · by_cases hb : (loan_details loan).balance_amount ≤ 0
      · simp only [make_payment, hl]
        rw [if_neg hg, if_pos hb]
      · exfalso
        apply h (l.getD "")
          (if (loan_details loan).balance_amount < am
           then (loan_details loan).balance_amount else am)
        simp only [make_payment, hl]
        rw [if_neg hg, if_neg hb]

/-- Claim C9: a loan's stored terms (`customer_id`, `principal`, `years`,
`rate`, `total_interest`, `total_amount`, `emi_amount`) are fixed at
creation: a recording `pay` only appends one payment to the targeted loan,
touching no other loan and no customer record; a non-recording `pay`
changes nothing; and `lend` touches no existing loan record and only ever
appends to a customer's `loan_ids` list. -/
theorem loan_terms_immutable_and_pay_appends (d : Dataset) :
    (∀ (lid : String) (loan : Loan) (amount : ℚ) (now : String),
      lid ≠ "" → alookup lid d.loans = some loan → 0 < amount →
      0 < (loan_details loan).balance_amount →
      ((make_payment (some lid) (some amount) now d).1.customers = d.customers ∧
       (∃ loan' : Loan,
          alookup lid (make_payment (some lid) (some amount) now d).1.loans
            = some loan' ∧
          loan'.customer_id = loan.customer_id ∧
          loan'.principal = loan.principal ∧
          loan'.years = loan.years ∧
          loan'.rate = loan.rate ∧
          loan'.total_interest = loan.total_interest ∧
          loan'.total_amount = loan.total_amount ∧
          loan'.emi_amount = loan.emi_amount ∧
          ∃ p : Payment, loan'.payments = loan.payments ++ [p]) ∧
       (∀ lid' : String, lid' ≠ lid →
          alookup lid' (make_payment (some lid) (some amount) now d).1.loans
            = alookup lid' d.loans))) ∧
    (∀ (l : Option String) (a : Option ℚ) (now : String),
      (∀ (lid0 : String) (am : ℚ), (make_payment l a now d).2 ≠ .ok lid0 am) →
      (make_payment l a now d).1 = d) ∧
    (∀ (c : Option String) (a : Option ℚ) (y : Option ℤ) (r : Option ℚ),
      (∀ lid' : String, lid' ≠ toString d.next_loan_id →
        alookup lid' (lend_money c a y r d).1.loans = alookup lid' d.loans) ∧
      (∀ (cid : String) (cust : Customer), alookup cid d.customers = some cust →
        ∃ cust' : Customer,
          alookup cid (lend_money c a y r d).1.customers = some cust' ∧
          ∃ extra : List String, cust'.loan_ids = cust.loan_ids ++ extra)) := by
  refine ⟨?_, make_payment_no_record_noop (d := d), fun c a y r => lend_money_frame c a y r d⟩
  intro lid loan amount now hlid hl hamt hbal
  by_cases hover : (loan_details loan).balance_amount < amount
  · rw [make_payment_ok_eq d lid loan amount now hlid hl hbal hover]
    exact ⟨rfl,
      ⟨_, alookup_aset_self _ _ _, rfl, rfl, rfl, rfl, rfl, rfl, rfl, _, rfl⟩,
      fun lid' hne => alookup_aset_ne hne _ _⟩
  · rw [make_payment_ok_eq_of_le d lid loan amount now hlid hl hbal hamt hover]
    exact ⟨rfl,
      ⟨_, alookup_aset_self _ _ _, rfl, rfl, rfl, rfl, rfl, rfl, rfl, _, rfl⟩,
      fun lid' hne => alookup_aset_ne hne _ _⟩

/-- Witness for C9: paying 500 on the worked-example loan leaves the
customers map and the other keys of the loans map untouched, and a second
customer's lend leaves "c1"'s loan list a prefix of its new value. -/
theorem loan_terms_immutable_and_pay_appends_witness :
    (make_payment (some "1") (some 500) "t5" exampleData).1.customers
        = exampleData.customers ∧
    alookup "2" (make_payment (some "1") (some 500) "t5" exampleData).1.loans
        = alookup "2" exampleData.loans ∧
    (∃ cust' : Customer,
       alookup "c1"
           (lend_money (some "c2") (some 600) (some 2) (some 5) exampleData).1.customers
         = some cust' ∧
       ∃ extra : List String,
         cust'.loan_ids = (Customer.mk ["1"]).loan_ids ++ extra) :=
  ⟨((loan_terms_immutable_and_pay_appends exampleData).1 "1" exampleLoan 500 "t5"
      (by decide) rfl (by norm_num)
      (by rw [loan_details_balance_eq]; norm_num [exampleLoan, round2, round_eq])).1,
   ((loan_terms_immutable_and_pay_appends exampleData).1 "1" exampleLoan 500 "t5"
      (by decide) rfl (by norm_num)
      (by rw [loan_details_balance_eq]; norm_num [exampleLoan, round2, round_eq])).2.2
     "2" (by decide),
   ((loan_terms_immutable_and_pay_appends exampleData).2.2
       (some "c2") (some 600) (some 2) (some 5)).2 "c1" (Customer.mk ["1"]) rfl⟩

/-- `make_payment` never changes the loan-id counter. -/
theorem make_payment_next_loan_id (l : Option String) (a : Option ℚ)
    (now : String) (d : Dataset) :
    (make_payment l a now d).1.next_loan_id = d.next_loan_id := by
  rcases a with _ | am
  · rfl
  by_cases hg : l.getD "" = "" ∨ am ≤ 0
  · simp only [make_payment]
    rw [if_pos hg]
  · rcases hl : alookup (l.getD "") d.loans with _ | loan
    · simp only [make_payment, hl]
      rw [if_neg hg]
    · by_cases hb : (loan_details loan).balance_amount ≤ 0
      · simp only [make_payment, hl]
        rw [if_neg hg, if_pos hb]
      · simp only [make_payment, hl]
        rw [if_neg hg, if_neg hb]

/-- Every `lend_money` call either fails and returns the dataset unchanged,
or succeeds, assigns the stringified current counter as the loan id, and
bumps the counter by exactly one. -/
theorem lend_money_outcome (c : Option String) (a : Option ℚ) (y : Option ℤ)
    (r : Option ℚ) (d : Dataset) :
    ((lend_money c a y r d).1 = d ∧
      ((lend_money c a y r d).2 = .typeError ∨
       (lend_money c a y r d).2 = .validationError)) ∨
    ((lend_money c a y r d).1.next_loan_id = d.next_loan_id + 1 ∧
      ∃ t e : ℚ, (lend_money c a y r d).2 = .ok (toString d.next_loan_id) t e) := by
  rcases a with _ | a
  · exact Or.inl ⟨rfl, Or.inl rfl⟩
  rcases y with _ | y
  · exact Or.inl ⟨rfl, Or.inl rfl⟩
  rcases r with _ | r
  · exact Or.inl ⟨rfl, Or.inl rfl⟩
  by_cases hcond : c.getD "" = "" ∨ a ≤ 0 ∨ y ≤ 0 ∨ r / 100 ≤ 0
  · refine Or.inl ⟨?_, Or.inr ?_⟩
    · simp only [lend_money]
      rw [if_pos hcond]
    · simp only [lend_money]
      rw [if_pos hcond]
  · refine Or.inr ⟨?_, ?_⟩
    · simp only [lend_money]
      rw [if_neg hcond]
    · simp only [lend_money]
      rw [if_neg hcond]
      exact ⟨_, _, rfl⟩

/-- The loan ids assigned by any request sequence starting from `d` are the
stringified consecutive counter values from `d.next_loan_id`, and the final
counter is the start plus the number of successful lends. -/
theorem lentIds_spec (ops : List Op) (d : Dataset) :
    ∃ k : ℕ,
      lentIds ops d
        = (List.range k).map (fun i : ℕ => toString (d.next_loan_id + (i : ℤ))) ∧
      (runOps ops d).next_loan_id = d.next_loan_id + (k : ℤ) := by
  induction ops generalizing d with
  | nil => exact ⟨0, rfl, by simp [runOps]⟩
  | cons op rest ih =>
    cases op with
    | pay l a n =>
      obtain ⟨k, h1, h2⟩ := ih ((make_payment l a n d).1)
      rw [make_payment_next_loan_id] at h1 h2
      exact ⟨k, h1, h2⟩
    | lend c a y r =>
      obtain ⟨k, h1, h2⟩ := ih ((lend_money c a y r d).1)
      rcases lend_money_outcome c a y r d with ⟨hd, hres⟩ | ⟨hnext, t, e, hres⟩
      · rw [hd] at h1 h2
        refine ⟨k, ?_, ?_⟩
        · rcases hres with h | h <;> simp only [lentIds, h, hd] <;> exact h1
        · show (runOps rest (applyOp (Op.lend c a y r) d)).next_loan_id = _
          simp only [applyOp]
          rw [hd]
          exact h2
      · rw [hnext] at h1 h2
        have hr : (List.range (k + 1)).map
              (fun i : ℕ => toString (d.next_loan_id + (i : ℤ)))
            = toString d.next_loan_id
              :: (List.range k).map
                  (fun i : ℕ => toString (d.next_loan_id + 1 + (i : ℤ))) := by
          rw [List.range_succ_eq_map, List.map_cons, List.map_map]
          congr 1
          · norm_num
          · refine List.map_congr_left ?_
            intro i hi
            simp only [Function.comp_apply]
            congr 1
            push_cast
            ring
        refine ⟨k + 1, ?_, ?_⟩
        · simp only [lentIds, hres]
          rw [h1, hr]
        · show (runOps rest (applyOp (Op.lend c a y r) d)).next_loan_id = _
          simp only [applyOp]
          rw [h2]
          push_cast
          ring

/-- Claim C4: the loan-id counter starts at 1 in a fresh dataset, is bumped
by exactly 1 on every successful lend (which assigns the stringified counter
as the new loan id), is never decremented by any operation, and so the ids
assigned by any request sequence from the fresh dataset are the stringified
consecutive integers starting at "1". -/
theorem loan_ids_consecutive_from_one (ops : List Op) :
    load_data.next_loan_id = 1 ∧
    (∀ (op : Op) (d : Dataset), d.next_loan_id ≤ (applyOp op d).next_loan_id) ∧
    (∀ (c : Option String) (a : Option ℚ) (y : Option ℤ) (r : Option ℚ)
       (d : Dataset) (lid : String) (t e : ℚ),
      (lend_money c a y r d).2 = .ok lid t e →
      lid = toString d.next_loan_id ∧
      (lend_money c a y r d).1.next_loan_id = d.next_loan_id + 1) ∧
    ∃ k : ℕ,
      lentIds ops load_data
        = (List.range k).map (fun i : ℕ => toString (1 + (i : ℤ))) ∧
      (runOps ops load_data).next_loan_id = 1 + (k : ℤ) := by
  refine ⟨rfl, ?_, ?_, lentIds_spec ops load_data⟩
  · intro op d
    cases op with
    | pay l a n =>
      simp only [applyOp]
      rw [make_payment_next_loan_id]
    | lend c a y r =>
      simp only [applyOp]
      rcases lend_money_outcome c a y r d with ⟨hd, _⟩ | ⟨hnext, _⟩
      · rw [hd]
      · rw [hnext]
        omega
  · intro c a y r d lid t e hok
    rcases lend_money_outcome c a y r d with ⟨_, hres⟩ | ⟨hnext, t0, e0, hres⟩
    · rcases hres with h | h <;> rw [hok] at h <;> exact absurd h (by simp)
    · have h := hok.symm.trans hres
      injection h with hlid ht he
      exact ⟨hlid, hnext⟩

set_option maxRecDepth 8000 in
/-- Witness for C4: on the two-lend sequence from the fresh dataset the
assigned ids are "1" and "2", the counter facts hold at the first lend. -/
theorem loan_ids_consecutive_from_one_witness :
    lentIds
        [Op.lend (some "c1") (some 1200) (some 1) (some 10),
         Op.lend (some "c2") (some 600) (some 2) (some 5)] load_data
      = ["1", "2"] ∧
    ("1" : String) = toString load_data.next_loan_id ∧
    (lend_money (some "c1") (some 1200) (some 1) (some 10) load_data).1.next_loan_id
      = load_data.next_loan_id + 1 := by
  refine ⟨by with_unfolding_all decide, ?_, ?_⟩
  · exact ((loan_ids_consecutive_from_one []).2.2.1 (some "c1") (some 1200) (some 1)
      (some 10) load_data "1" 1320 110 (by with_unfolding_all decide)).1
  · exact ((loan_ids_consecutive_from_one []).2.2.1 (some "c1") (some 1200) (some 1)
      (some 10) load_data "1" 1320 110 (by with_unfolding_all decide)).2

/-- The fresh dataset is referentially intact. -/
theorem refIntegrity_load_data : RefIntegrity load_data := by
  constructor
  · intro cid cust h
    simp [load_data, alookup] at h
  · intro lid loan h
    simp [load_data, alookup] at h

/-- `make_payment` preserves referential integrity: it only replaces one
loan in place, keeping its `customer_id`. -/
theorem refIntegrity_pay (l : Option String) (a : Option ℚ) (now : String)
    (d : Dataset) (h : RefIntegrity d) :
    RefIntegrity (make_payment l a now d).1 := by
  rcases a with _ | am
  · exact h
  by_cases hg : l.getD "" = "" ∨ am ≤ 0
  · simp only [make_payment]
    rw [if_pos hg]
    exact h
  · rcases hl : alookup (l.getD "") d.loans with _ | loan
    · simp only [make_payment, hl]
      rw [if_neg hg]
      exact h
    · by_cases hb : (loan_details loan).balance_amount ≤ 0
      · simp only [make_payment, hl]
        rw [if_neg hg, if_pos hb]
        exact h
      · simp only [make_payment, hl]
        rw [if_neg hg, if_neg hb]
        constructor
        · intro cid cust hc lid0 hmem
          exact alookup_aset_isSome _ _ _ _ (h.1 cid cust hc lid0 hmem)
        · intro lid0 loan0 hl0
          by_cases heq : lid0 = l.getD ""
          · subst heq
            rw [alookup_aset_self] at hl0
            cases Option.some.inj hl0
            exact h.2 _ loan hl
          · rw [alookup_aset_ne heq] at hl0
            exact h.2 lid0 loan0 hl0

/-- `lend_money` preserves referential integrity: the new loan's owner is
registered in the same step, and nothing else is removed. -/
theorem refIntegrity_lend (c : Option String) (a : Option ℚ) (y : Option ℤ)
    (r : Option ℚ) (d : Dataset) (h : RefIntegrity d) :
    RefIntegrity (lend_money c a y r d).1 := by
  rcases a with _ | a
  · exact h
  rcases y with _ | y
  · exact h
  rcases r with _ | r
  · exact h
  by_cases hcond : c.getD "" = "" ∨ a ≤ 0 ∨ y ≤ 0 ∨ r / 100 ≤ 0
  · simp only [lend_money]
    rw [if_pos hcond]
    exact h
  · simp only [lend_money]
    rw [if_neg hcond]
    rcases hcu : alookup (c.getD "") d.customers with _ | cust0
    · simp only [hcu]
      constructor
      · intro cid cust hc lid0 hmem
        by_cases hcid : cid = c.getD ""
        · subst hcid
          rw [alookup_aset_self] at hc
          cases Option.some.inj hc
          have hmem' : lid0 ∈ [toString d.next_loan_id] := hmem
          obtain rfl := List.mem_singleton.mp hmem'
          rw [alookup_aset_self]
          rfl
        · rw [alookup_aset_ne hcid] at hc
          exact alookup_aset_isSome _ _ _ _ (h.1 cid cust hc lid0 hmem)
      · intro lid0 loan0 hl0
        by_cases heq : lid0 = toString d.next_loan_id
        · subst heq
          rw [alookup_aset_self] at hl0
          cases Option.some.inj hl0
          have hgoal : (alookup (c.getD "")
              (aset (c.getD "") (Customer.mk [toString d.next_loan_id])
                d.customers)).isSome = true := by
            rw [alookup_aset_self]
            rfl
          exact hgoal
        · rw [alookup_aset_ne heq] at hl0
          exact alookup_aset_isSome _ _ _ _ (h.2 lid0 loan0 hl0)
    · simp only [hcu]
      constructor
      · intro cid cust hc lid0 hmem
        by_cases hcid : cid = c.getD ""
        · subst hcid
          rw [alookup_aset_self] at hc
          cases Option.some.inj hc
          have hmem' : lid0 ∈ cust0.loan_ids ++ [toString d.next_loan_id] := hmem
          rcases List.mem_append.mp hmem' with hm | hm
          · exact alookup_aset_isSome _ _ _ _ (h.1 _ cust0 hcu lid0 hm)
          · obtain rfl := List.mem_singleton.mp hm
            rw [alookup_aset_self]
            rfl
        · rw [alookup_aset_ne hcid] at hc
          exact alookup_aset_isSome _ _ _ _ (h.1 cid cust hc lid0 hmem)
      · intro lid0 loan0 hl0
        by_cases heq : lid0 = toString d.next_loan_id
        · subst heq
          rw [alookup_aset_self] at hl0
          cases Option.some.inj hl0
          have hgoal : (alookup (c.getD "")
              (aset (c.getD "")
                (Customer.mk (cust0.loan_ids ++ [toString d.next_loan_id]))
                d.customers)).isSome = true := by
            rw [alookup_aset_self]
            rfl
          exact hgoal
        · rw [alookup_aset_ne heq] at hl0
          exact alookup_aset_isSome _ _ _ _ (h.2 lid0 loan0 hl0)

/-- Referential integrity is preserved by every request sequence. -/
theorem refIntegrity_runOps (ops : List Op) (d : Dataset) (h : RefIntegrity d) :
    RefIntegrity (runOps ops d) := by
  induction ops generalizing d with
  | nil => exact h
  | cons op rest ih =>
    cases op with
    | lend c a y r => exact ih _ (refIntegrity_lend c a y r d h)
    | pay l a n => exact ih _ (refIntegrity_pay l a n d h)

theorem length_filterMap_of_isSome {beta gamma : Type} (f : beta → Option gamma)
    (l : List beta) (h : ∀ x ∈ l, (f x).isSome = true) :
    (l.filterMap f).length = l.length := by
  induction l with
  | nil => rfl
  | cons x xs ih =>
    obtain ⟨y, hy⟩ := Option.isSome_iff_exists.mp (h x (by simp))
    rw [List.filterMap_cons, hy, List.length_cons, List.length_cons,
      ih fun z hz => h z (by simp [hz])]

/-- Claim C10: every dataset reachable from the fresh dataset by lend and
pay requests is referentially intact — every loan id in a customer's
`loan_ids` is a key of the loans map and every loan's `customer_id` is a
key of the customers map — and consequently `getOverview` of an existing
customer returns exactly one summary per listed loan, skipping none. -/
theorem reachable_datasets_referentially_intact (ops : List Op) :
    RefIntegrity (runOps ops load_data) ∧
    (∀ (cid : String) (cust : Customer),
      alookup cid (runOps ops load_data).customers = some cust →
      ∃ L : List LoanSummary,
        get_account_overview cid (runOps ops load_data) = .ok cid L ∧
        L.length = cust.loan_ids.length) := by
  have hri := refIntegrity_runOps ops load_data refIntegrity_load_data
  refine ⟨hri, ?_⟩
  intro cid cust hc
  refine ⟨cust.loan_ids.filterMap
      (fun lid => (get_loan_details lid (runOps ops load_data)).map (mkSummary lid)),
    ?_, ?_⟩
  · simp only [get_account_overview, hc]
  · refine length_filterMap_of_isSome _ _ ?_
    intro lid hmem
    rcases Option.isSome_iff_exists.mp (hri.1 cid cust hc lid hmem) with ⟨loan, hloan⟩
    simp [get_loan_details, hloan]

set_option maxRecDepth 8000 in
/-- Witness for C10: after the worked-example lend, customer "c1" has one
listed loan and the overview reports exactly one summary. -/
theorem reachable_datasets_referentially_intact_witness :
    ∃ L : List LoanSummary,
      get_account_overview "c1"
          (runOps [Op.lend (some "c1") (some 1200) (some 1) (some 10)] load_data)
        = .ok "c1" L ∧
      L.length = (Customer.mk ["1"]).loan_ids.length :=
  (reachable_datasets_referentially_intact
      [Op.lend (some "c1") (some 1200) (some 1) (some 10)]).2 "c1" (Customer.mk ["1"])
    (by with_unfolding_all decide)

end BankSystem
